import Mathlib

/-! # OrbitDB coordinator (`src/OrbitDB.js`)

A shallow embedding of the `OrbitDB` class: the address to store registry, the
create / load protocol against the metadata cache, the replication handlers and
close / disconnect.

Conventions of the embedding.

* A method is a function from the coordinator state (and its arguments) to a
  completion and the state it leaves.  A completion is a normal return, a
  synchronous throw, or, for the methods that return a promise, the settled
  promise (fulfilled or rejected).  Promise chains are run to completion in
  program order; interleaving of two calls is outside the model.
* The collaborators that the class only calls into (the stores, the pubsub
  channel, the timers) are represented by the trace of calls made on them, in
  program order.  A store object is a reference; its constructor call is in the
  trace.
* The metadata cache (package `orbit-db-cache`) is a persisted key/value store
  scoped by (directory, name): `set` then `get` on the same scope and key gives
  the value back, an unset key reads as `undefined`, and the stores do not
  write to it.
* `parseAddress` (`./parse-address`) and `path.join` are taken as parameters.
* `this.stores` is a plain object.  Its own properties are the registered
  addresses; a read `this.stores[k]` at a name that is not registered sees the
  member inherited from `Object.prototype` when `k` is one of its names, and
  `undefined` otherwise.  The prototype of the registry is taken to stay
  `Object.prototype`.
-/

namespace OrbitDB

/-! ## JavaScript values -/

/-- The JavaScript values that flow through the coordinator. -/
inductive JSVal where
  | undefined
  | null
  | bool (b : Bool)
  | num (n : Int)
  | str (s : String)
  /-- an instance made by `new Cache(path, name)` -/
  | cache (path : String) (name : String)
  /-- any other object or array, by reference -/
  | obj (ref : Nat)
  deriving DecidableEq, Repr

/-- JavaScript truthiness (`if (v)`, `!v`, `a && b`, `a || b`). -/
def truthy : JSVal → Bool
  | .undefined => false
  | .null => false
  | .bool b => b
  | .num n => decide (n ≠ 0)
  | .str s => decide (s ≠ "")
  | .cache _ _ => true
  | .obj _ => true

/-! ## Finite maps with insertion order (plain JavaScript objects) -/

/-- Own property lookup: the first binding of the key. -/
def lookup {κ α : Type} [DecidableEq κ] (k : κ) : List (κ × α) → Option α
  | [] => none
  | (k', v) :: rest => if k' = k then some v else lookup k rest

/-- The result of `Object.assign(target, source)`: the keys of the target keep their
place and take the value of the source where it has one, the keys that only
the source has follow in the order of the source. -/
def assign {κ α : Type} [DecidableEq κ] (target source : List (κ × α)) : List (κ × α) :=
  target.map (fun kv => (kv.1, (lookup kv.1 source).getD kv.2))
    ++ source.filter (fun kv => (lookup kv.1 target).isNone)

/-- The assignment `o[k] = v`. -/
def setKey {κ α : Type} [DecidableEq κ] (o : List (κ × α)) (k : κ) (v : α) : List (κ × α) :=
  assign o [(k, v)]

/-- The statement `delete o[k]`. -/
def deleteKey {κ α : Type} [DecidableEq κ] (o : List (κ × α)) (k : κ) : List (κ × α) :=
  o.filter (fun kv => decide (kv.1 ≠ k))

/-- The array index a property name denotes, if it is one: a canonical decimal
numeral below `2^32 - 1`. -/
def arrayIndex (s : String) : Option Nat :=
  match s.data with
  | [] => none
  | c :: cs =>
    if (c :: cs).all Char.isDigit && (c != '0' || cs.isEmpty) then
      let n := (c :: cs).foldl (fun acc d => 10 * acc + (d.toNat - 48)) 0
      if n < 4294967295 then some n else none
    else none

/-- The list `Object.keys(o)`: each own key once, the array indices in ascending
order first, then the other names in insertion order. -/
def ownKeys {α : Type} (o : List (String × α)) : List String :=
  let ks := (o.map Prod.fst).dedup
  (ks.filter (fun k => (arrayIndex k).isSome)).insertionSort
      (fun a b => (arrayIndex a).getD 0 ≤ (arrayIndex b).getD 0)
    ++ ks.filter (fun k => !(arrayIndex k).isSome)

/-- The names every plain object inherits from `Object.prototype`; each of them
reads as a truthy value (a function, or the prototype itself for `__proto__`)
that has no `events` and no `sync` property. -/
def objectPrototypeNames : List String :=
  ["constructor", "__defineGetter__", "__defineSetter__", "hasOwnProperty",
   "__lookupGetter__", "__lookupSetter__", "isPrototypeOf", "propertyIsEnumerable",
   "toString", "valueOf", "__proto__", "toLocaleString"]

/-- A plain object with string keys (an options object). -/
abbrev Obj := List (String × JSVal)

/-- Property read `o.k`: `undefined` when the object has no such property. -/
def Obj.get (o : Obj) (k : String) : JSVal :=
  (lookup k o).getD .undefined

/-! ## Collaborators -/

/-- The five store constructors required at the top of the file. -/
inductive StoreClass where
  | EventStore
  | FeedStore
  | KeyValueStore
  | CounterStore
  | DocumentStore
  deriving DecidableEq, Repr

/-- The functions the coordinator binds as callbacks. -/
inductive Handler where
  | _onWrite
  | _onReady
  | _onMessage
  deriving DecidableEq, Repr

/-- The body of a deferred callback: `() => this._pubsub.publish(dbname, heads)`. -/
inductive Task where
  | publish (dbname : String) (heads : JSVal)
  deriving DecidableEq, Repr

/-- One call made by the coordinator on a collaborator. -/
inductive Effect where
  /-- the call `new Store(ipfs, id, dbname, opts)`, giving the store `ref` -/
  | construct (ref : Nat) (Store : StoreClass) (ipfs : JSVal) (id : String)
      (dbname : String) (opts : Obj)
  /-- the call `store.events.on(event, handler)` -/
  | on (ref : Nat) (event : String) (handler : Handler)
  /-- the call `store.events.removeAllListeners(event)` -/
  | removeAllListeners (ref : Nat) (event : String)
  /-- the call `store.sync(heads)` -/
  | sync (ref : Nat) (heads : JSVal)
  /-- the call `this._pubsub.subscribe(addr, handler)` -/
  | subscribe (addr : String) (handler : Handler)
  /-- the call `this._pubsub.unsubscribe(dbname)` -/
  | unsubscribe (dbname : String)
  /-- the call `this._pubsub.publish(dbname, heads)` -/
  | publish (dbname : String) (heads : JSVal)
  /-- the call `this._pubsub.disconnect()` -/
  | pubsubDisconnect
  /-- the call `setImmediate(task)` -/
  | setImmediate (task : Task)
  /-- the call `setTimeout(task, ms)` -/
  | setTimeout (task : Task) (ms : Nat)
  deriving DecidableEq, Repr

/-- The errors the class raises. -/
inductive Err where
  /-- a `TypeError` of the runtime: a property read or call on `null` / `undefined` -/
  | typeError
  /-- the error `Database '<addr>' already exists!` -/
  | alreadyExists (addr : String)
  /-- the error `Invalid database type '<type>'.` -/
  | invalidType (type : JSVal)
  /-- the error `Database '<addr>' doesn't exist.` -/
  | notFound (addr : String)
  /-- the error `Unknown database type '<type>'` -/
  | unknownType (type : JSVal)
  /-- the error `'heads' not defined` -/
  | missingHeads
  deriving DecidableEq, Repr

/-- How a call ends. -/
inductive Completion (α : Type) where
  /-- normal return of a value -/
  | returned (v : α)
  /-- exception thrown before the call returns -/
  | threw (e : Err)
  /-- a promise was returned and it is fulfilled with `v` -/
  | resolved (v : α)
  /-- a promise was returned and it is rejected with `e` -/
  | rejected (e : Err)
  deriving DecidableEq, Repr

/-- A call fails when it throws or its promise is rejected. -/
def Completion.fails {α : Type} : Completion α → Bool
  | .returned _ => false
  | .threw _ => true
  | .resolved _ => false
  | .rejected _ => true

/-- The two imported pure functions. -/
structure Env where
  /-- the function `parseAddress(address, id)` of `./parse-address` -/
  parseAddress : String → String → String
  /-- the function `path.join(p)` with one argument -/
  join : String → String

/-- The scope of a cache instance: the two arguments of `new Cache(path, name)`. -/
abbrev Scope := String × String

/-- The coordinator (the fields of `this`) together with the persisted cache
contents, the next fresh store reference and the trace of calls. -/
structure State where
  _ipfs : JSVal
  /-- whether `this._pubsub` holds a channel -/
  _pubsub : Bool
  /-- the `id` of `this.user`, `none` when `this.user` is `null` -/
  user : Option String
  /-- the `name` of `this.network`, `none` when `this.network` is `null` -/
  network : Option String
  /-- the registry `this.stores`: address to store reference -/
  stores : List (String × Nat)
  /-- the field `this._cache`, `none` before the first create / load -/
  _cache : Option Scope
  /-- the persisted contents of all caches, by scope and key -/
  disk : List ((Scope × String) × JSVal)
  nextRef : Nat
  trace : List Effect
  deriving DecidableEq, Repr

/-- Modelled from the spec: the metadata cache (package `orbit-db-cache`) is not
part of the source.  The method `get(key)` of a cache instance: the promise
resolves to the value last set at the key in the scope of the instance,
`undefined` when unset. -/
def Cache.get (disk : List ((Scope × String) × JSVal)) (c : Scope) (key : String) : JSVal :=
  (lookup (c, key) disk).getD .undefined

/-- Modelled from the spec: the metadata cache (package `orbit-db-cache`) is not
part of the source.  The method `set(key, value)` of a cache instance: the
value is stored at the key in the scope of the instance. -/
def Cache.set (disk : List ((Scope × String) × JSVal)) (c : Scope) (key : String)
    (value : JSVal) : List ((Scope × String) × JSVal) :=
  setKey disk (c, key) value

/-- Modelled from the spec: the pubsub channel (package `orbit-db-pubsub`) is not
part of the source.  One call seen from the channel, by its contract:
`subscribe` adds the address, `unsubscribe` removes it and is a no-op when it
is not subscribed, `disconnect` drops every subscription; other calls do not
concern the channel's subscriptions. -/
def channelStep (subs : List String) : Effect → List String
  | .subscribe addr _ => if addr ∈ subs then subs else subs ++ [addr]
  | .unsubscribe dbname => subs.filter (fun a => decide (a ≠ dbname))
  | .pubsubDisconnect => []
  | _ => subs

/-- The addresses subscribed on the channel after a trace of calls. -/
def subscribed (trace : List Effect) : List String :=
  trace.foldl channelStep []

/-! ## The class -/

def defaultNetworkName : String := "Orbit DEV Network"

/-- The field `this.types`; it is assigned in the constructor only. -/
def types : List String := ["eventlog", "feed", "docstore", "counter", "keyvalue"]

/-- The constructor, `new OrbitDB(ipfs, id)`. -/
def init (ipfs : JSVal) (id : String) : State :=
  { _ipfs := ipfs, _pubsub := true, user := some id, network := some defaultNetworkName,
    stores := [], _cache := none, disk := [], nextRef := 0, trace := [] }

/-- Method `static isValidType (types, type)`: `types.includes(type)`. -/
def isValidType (types : List String) (type : JSVal) : Bool :=
  types.any (fun t => decide (JSVal.str t = type))

/-- The expression `Object.assign({ replicate: true }, options)` of `_createStore`;
absent options are skipped by `Object.assign`. -/
def withReplicate (options : Option Obj) : Obj :=
  assign [("replicate", JSVal.bool true)] (options.getD [])

/-- The expression `Object.assign({}, options, { path: p, cache: this._cache })` of
`create` and `load`. -/
def withCache (options : Option Obj) (p : String) (c : String × String) : Obj :=
  assign (assign [] (options.getD [])) [("path", .str p), ("cache", .cache c.1 c.2)]

/-- Method `_createStore(Store, dbname, options)`. -/
def _createStore (env : Env) (db : State) (Store : StoreClass) (dbname : String)
    (options : Option Obj) : Completion Nat × State :=
  let opts : Obj := withReplicate options
  match db.user with
  | none => (.threw .typeError, db)
  | some id =>
    let addr := env.parseAddress dbname id
    let store := db.nextRef
    let db := { db with
      nextRef := db.nextRef + 1
      trace := db.trace ++ [Effect.construct store Store db._ipfs id dbname opts,
        Effect.on store "write" Handler._onWrite, Effect.on store "ready" Handler._onReady] }
    let db := { db with stores := setKey db.stores addr store }
    let db := if truthy (opts.get "replicate") && db._pubsub
      then { db with trace := db.trace ++ [Effect.subscribe addr Handler._onMessage] }
      else db
    (.returned store, db)

def feed (env : Env) (db : State) (dbname : String) (options : Option Obj) :
    Completion Nat × State :=
  _createStore env db .FeedStore dbname options

def eventlog (env : Env) (db : State) (dbname : String) (options : Option Obj) :
    Completion Nat × State :=
  _createStore env db .EventStore dbname options

def kvstore (env : Env) (db : State) (dbname : String) (options : Option Obj) :
    Completion Nat × State :=
  _createStore env db .KeyValueStore dbname options

def counter (env : Env) (db : State) (dbname : String) (options : Option Obj) :
    Completion Nat × State :=
  _createStore env db .CounterStore dbname options

def docstore (env : Env) (db : State) (dbname : String) (options : Option Obj) :
    Completion Nat × State :=
  _createStore env db .DocumentStore dbname options

/-- Method `close(dbname)`.  The guard `if (this.stores[dbname])` holds for a
registered address and also for an unregistered name inherited from
`Object.prototype`; in the latter case `this.stores[dbname].events` is
`undefined` and the call of `removeAllListeners` on it throws a TypeError. -/
def close (db : State) (dbname : String) : Completion Unit × State :=
  let db := if db._pubsub then { db with trace := db.trace ++ [Effect.unsubscribe dbname] } else db
  match lookup dbname db.stores with
  | some store =>
    (.returned (), { db with
      trace := db.trace ++ [Effect.removeAllListeners store "write"]
      stores := deleteKey db.stores dbname })
  | none =>
    if dbname ∈ objectPrototypeNames then (.threw .typeError, db)
    else (.returned (), db)

/-- The loop `keys.forEach((e) => this.close(e))`: an exception thrown by a call
ends the loop. -/
def closeAll (db : State) : List String → Completion Unit × State
  | [] => (.returned (), db)
  | e :: es =>
    match close db e with
    | (.threw err, db) => (.threw err, db)
    | (_, db) => closeAll db es

/-- Method `disconnect()`. -/
def disconnect (db : State) : Completion Unit × State :=
  match closeAll db (ownKeys db.stores) with
  | (.threw err, db) => (.threw err, db)
  | (_, db) =>
    let db := if db._pubsub then { db with trace := db.trace ++ [Effect.pubsubDisconnect] } else db
    (.returned (), { db with stores := [], user := none, network := none })

/-- Method `_openDatabase(dbname, type, options)`. -/
def _openDatabase (env : Env) (db : State) (dbname : String) (type : JSVal)
    (options : Option Obj) : Completion Nat × State :=
  if type = .str "counter" then counter env db dbname options
  else if type = .str "eventlog" then eventlog env db dbname options
  else if type = .str "feed" then feed env db dbname options
  else if type = .str "docstore" then docstore env db dbname options
  else if type = .str "keyvalue" then kvstore env db dbname options
  else (.threw (.unknownType type), db)

/-- The directory of the cache: `path.join(directory || './orbitdb')`. -/
def cachePath (env : Env) (directory : Option String) : String :=
  env.join (match directory with
    | some d => if d = "" then "./orbitdb" else d
    | none => "./orbitdb")

/-- The name of the cache:
`addr.indexOf('/orbitdb') === 0 ? addr.replace('/orbitdb', '') : addr`. -/
def cacheName (addr : String) : String :=
  if "/orbitdb".data.isPrefixOf addr.data then String.mk (addr.data.drop 8) else addr

/-- The three writes of `create`, each awaited before the next:
`set(addr + '.type', type)`, `set(addr + '.localhead', null)`,
`set(addr + '.remotehead', null)`. -/
def writeRecord (db : State) (c : Scope) (addr : String) (type : JSVal) : State :=
  let db := { db with disk := Cache.set db.disk c (addr ++ ".type") type }
  let db := { db with disk := Cache.set db.disk c (addr ++ ".localhead") .null }
  { db with disk := Cache.set db.disk c (addr ++ ".remotehead") .null }

/-- Method `create(address, type, directory, options)`. -/
def create (env : Env) (db : State) (address : String) (type : JSVal)
    (directory : Option String) (options : Option Obj) : Completion Nat × State :=
  let p := cachePath env directory
  match db.user with
  | none => (.threw .typeError, db)
  | some id =>
    let addr := env.parseAddress address id
    let c : Scope := (p, cacheName addr)
    let db := { db with _cache := some c }
    let options : Obj := withCache options p c
    let hash := Cache.get db.disk c addr
    if truthy hash then (.rejected (.alreadyExists addr), db)
    else if !isValidType types type then (.rejected (.invalidType type), db)
    else
      let db := writeRecord db c addr type
      match _openDatabase env db addr type (some options) with
      | (.returned store, db) => (.resolved store, db)
      | (.threw e, db) => (.rejected e, db)
      | r => r

/-- Method `load(address, directory, options)`.  The promise resolves to `some store`
or to `none` for `undefined`. -/
def load (env : Env) (db : State) (address : String) (directory : Option String)
    (options : Option Obj) : Completion (Option Nat) × State :=
  let p := cachePath env directory
  match db.user with
  | none => (.threw .typeError, db)
  | some id =>
    let addr := env.parseAddress address id
    let c : Scope := (p, cacheName addr)
    let db := { db with _cache := some c }
    let options : Obj := withCache options p c
    let type := Cache.get db.disk c (addr ++ ".type")
    if !truthy type && !truthy (options.get "type") then
      (.rejected (.notFound addr), db)
    else if truthy (options.get "type") && decide (options.get "create" = .bool true) then
      match create env db address (options.get "type") directory (some options) with
      | (.returned store, db) => (.resolved (some store), db)
      | (.resolved store, db) => (.resolved (some store), db)
      | (.threw e, db) => (.rejected e, db)
      | (.rejected e, db) => (.rejected e, db)
    else
      match _openDatabase env db addr type (some options) with
      | (.threw e, db) => (.rejected e, db)
      | (_, db) => (.resolved none, db)

/-- Method `_onMessage(dbname, heads)`. -/
def _onMessage (db : State) (dbname : String) (heads : JSVal) : Completion Unit × State :=
  match lookup dbname db.stores with
  | none => (.threw .typeError, db)
  | some store => (.returned (), { db with trace := db.trace ++ [Effect.sync store heads] })

/-- Method `_onWrite(dbname, hash, entry, heads)`. -/
def _onWrite (db : State) (dbname : String) (_hash : JSVal) (_entry : JSVal) (heads : JSVal) :
    Completion Unit × State :=
  if !truthy heads then (.threw .missingHeads, db)
  else if db._pubsub then
    (.returned (), { db with trace := db.trace ++ [Effect.setImmediate (Task.publish dbname heads)] })
  else (.returned (), db)

/-- Method `_onReady(dbname, heads)`. -/
def _onReady (db : State) (dbname : String) (heads : JSVal) : Completion Unit × State :=
  if truthy heads && db._pubsub then
    (.returned (), { db with trace := db.trace ++ [Effect.setTimeout (Task.publish dbname heads) 1000] })
  else (.returned (), db)

/-- Running a deferred callback when its timer fires. -/
def runTask (db : State) : Task → Completion Unit × State
  | .publish dbname heads =>
    if db._pubsub then (.returned (), { db with trace := db.trace ++ [Effect.publish dbname heads] })
    else (.threw .typeError, db)

/-- The constructor `_openDatabase` reaches for a type, through the factory method
it calls for it. -/
def storeClassOf (type : String) : Option StoreClass :=
  if type = "counter" then some .CounterStore
  else if type = "eventlog" then some .EventStore
  else if type = "feed" then some .FeedStore
  else if type = "docstore" then some .DocumentStore
  else if type = "keyvalue" then some .KeyValueStore
  else none

/-- The state a fulfilled `create(A, T, dir, ...)` leaves on a coordinator whose
user is `id`, as a function of the options object `opts` that reaches the
constructor of the store (class `S`, with `replicate` truthy in `opts`): the
cache attached, the record written, the store constructed on the parsed
address, its two listeners attached, the store registered, the address
subscribed when there is a channel. -/
def created (env : Env) (db : State) (A T : String) (S : StoreClass) (dir : Option String)
    (id : String) (opts : Obj) : State :=
  let addr := env.parseAddress A id
  let c : Scope := (cachePath env dir, cacheName addr)
  { db with
    _cache := some c
    disk := Cache.set (Cache.set (Cache.set db.disk c (addr ++ ".type") (.str T)) c
      (addr ++ ".localhead") .null) c (addr ++ ".remotehead") .null
    nextRef := db.nextRef + 1
    stores := setKey db.stores (env.parseAddress addr id) db.nextRef
    trace := db.trace
      ++ [Effect.construct db.nextRef S db._ipfs id addr opts,
          Effect.on db.nextRef "write" Handler._onWrite,
          Effect.on db.nextRef "ready" Handler._onReady]
      ++ (if db._pubsub then [Effect.subscribe (env.parseAddress addr id) Handler._onMessage]
          else []) }

/-! ## Sample inputs -/

/-- An environment for the examples: names that are not yet addresses are put
under the owner, and `join` drops a leading `./`, as `path.join` does on the
default directory (`path.join('./orbitdb')` is `'orbitdb'`). -/
def sampleEnv : Env :=
  { parseAddress := fun address id =>
      if "/orbitdb".data.isPrefixOf address.data then address
      else "/orbitdb/" ++ id ++ "/" ++ address
    join := fun p => if "./".data.isPrefixOf p.data then String.mk (p.data.drop 2) else p }

/-- A fresh coordinator for the examples. -/
def db0 : State := init (.obj 0) "default"

/-- A fresh coordinator after `feed('A', { replicate: false })`. -/
def dbU : State :=
  (feed sampleEnv db0 "A" (some [("replicate", .bool false)])).2

/-- The coordinator after `create('A', 'feed')` on a fresh one. -/
def db1 : State := (create sampleEnv db0 "A" (.str "feed") none none).2

/-! ## Finite maps -/

theorem lookup_append {κ α : Type} [DecidableEq κ] (k : κ) (l₁ l₂ : List (κ × α)) :
    lookup k (l₁ ++ l₂) = (lookup k l₁).orElse (fun _ => lookup k l₂) := by
  induction l₁ with
  | nil => simp [lookup]
  | cons x xs ih =>
    obtain ⟨a, b⟩ := x
    by_cases h : a = k <;> simp [lookup, h, ih]

theorem lookup_map_value {κ α : Type} [DecidableEq κ] (k : κ) (f : κ → α → α)
    (l : List (κ × α)) :
    lookup k (l.map (fun kv => (kv.1, f kv.1 kv.2))) = (lookup k l).map (f k) := by
  induction l with
  | nil => simp [lookup]
  | cons x xs ih =>
    obtain ⟨a, b⟩ := x
    by_cases h : a = k
    · subst h; simp [lookup]
    · simp [lookup, h, ih]

theorem lookup_filter_key {κ α : Type} [DecidableEq κ] (k : κ) (q : κ → Bool)
    (l : List (κ × α)) (hq : q k = true) :
    lookup k (l.filter (fun kv => q kv.1)) = lookup k l := by
  induction l with
  | nil => simp [lookup]
  | cons x xs ih =>
    obtain ⟨a, b⟩ := x
    by_cases h : a = k
    · subst h; simp [List.filter, hq, lookup]
    · by_cases hqa : q a = true <;> simp [List.filter, hqa, lookup, h, ih]

theorem lookup_assign {κ α : Type} [DecidableEq κ] (k : κ) (t s : List (κ × α)) :
    lookup k (assign t s) = (lookup k s).orElse (fun _ => lookup k t) := by
  unfold assign
  rw [lookup_append, lookup_map_value k (fun key v => (lookup key s).getD v) t]
  cases ht : lookup k t with
  | none =>
    have := lookup_filter_key k (fun key => (lookup key t).isNone) s (by simp [ht])
    simp [this]
  | some v => cases hs : lookup k s <;> simp

theorem lookup_setKey {κ α : Type} [DecidableEq κ] (k k' : κ) (v : α) (o : List (κ × α)) :
    lookup k (setKey o k' v) = if k' = k then some v else lookup k o := by
  unfold setKey
  rw [lookup_assign]
  by_cases h : k' = k <;> simp [lookup, h]

theorem lookup_deleteKey_self {κ α : Type} [DecidableEq κ] (k : κ) (o : List (κ × α)) :
    lookup k (deleteKey o k) = none := by
  induction o with
  | nil => simp [deleteKey, lookup]
  | cons x xs ih =>
    obtain ⟨a, b⟩ := x
    by_cases h : a = k
    · subst h; simpa [deleteKey, List.filter] using ih
    · simpa [deleteKey, List.filter, h, lookup] using ih

theorem deleteKey_of_absent {κ α : Type} [DecidableEq κ] (k : κ) (o : List (κ × α))
    (h : lookup k o = none) : deleteKey o k = o := by
  induction o with
  | nil => simp [deleteKey]
  | cons x xs ih =>
    obtain ⟨a, b⟩ := x
    by_cases hk : a = k
    · simp [lookup, hk] at h
    · simp [lookup, hk] at h
      have := ih h
      simp [deleteKey, List.filter, hk] at this ⊢
      exact this

/-! ## Cache keys -/

theorem type_key_ne (a : String) : a ++ ".type" ≠ a := by
  intro h
  have := congrArg String.length h
  simp [String.length_append] at this
  exact absurd this (by decide)

theorem localhead_key_ne (a : String) : a ++ ".localhead" ≠ a := by
  intro h
  have := congrArg String.length h
  simp [String.length_append] at this
  exact absurd this (by decide)

theorem remotehead_key_ne (a : String) : a ++ ".remotehead" ≠ a := by
  intro h
  have := congrArg String.length h
  simp [String.length_append] at this
  exact absurd this (by decide)

theorem localhead_ne_type (a : String) : a ++ ".localhead" ≠ a ++ ".type" := by
  intro h
  have := congrArg String.length h
  simp [String.length_append] at this
  exact absurd this (by decide)

theorem remotehead_ne_type (a : String) : a ++ ".remotehead" ≠ a ++ ".type" := by
  intro h
  have := congrArg String.length h
  simp [String.length_append] at this
  exact absurd this (by decide)

theorem remotehead_ne_localhead (a : String) : a ++ ".remotehead" ≠ a ++ ".localhead" := by
  intro h
  have := congrArg String.length h
  simp [String.length_append] at this
  exact absurd this (by decide)

theorem Cache.get_set (disk : List ((Scope × String) × JSVal)) (c : Scope) (k k' : String)
    (v : JSVal) :
    Cache.get (Cache.set disk c k' v) c k = if k' = k then v else Cache.get disk c k := by
  unfold Cache.get Cache.set
  rw [lookup_setKey]
  by_cases h : k' = k <;> simp [h]

/-- What `create` leaves in the cache, read back at the bare address. -/
theorem Cache.get_after_create_sets (disk : List ((Scope × String) × JSVal)) (c : Scope)
    (addr : String) (type : JSVal) :
    Cache.get (Cache.set (Cache.set (Cache.set disk c (addr ++ ".type") type) c
      (addr ++ ".localhead") .null) c (addr ++ ".remotehead") .null) c addr
      = Cache.get disk c addr := by
  simp [Cache.get_set, type_key_ne, localhead_key_ne, remotehead_key_ne]

/-- What `create` leaves in the cache, read back at the type key. -/
theorem Cache.get_type_after_create_sets (disk : List ((Scope × String) × JSVal)) (c : Scope)
    (addr : String) (type : JSVal) :
    Cache.get (Cache.set (Cache.set (Cache.set disk c (addr ++ ".type") type) c
      (addr ++ ".localhead") .null) c (addr ++ ".remotehead") .null) c (addr ++ ".type")
      = type := by
  simp [Cache.get_set, localhead_ne_type, remotehead_ne_type]

/-! ## Options -/

theorem get_withCache (o : Option Obj) (p : String) (c : String × String) (k : String)
    (hp : k ≠ "path") (hc : k ≠ "cache") :
    Obj.get (withCache o p c) k = Obj.get (o.getD []) k := by
  unfold Obj.get withCache
  rw [lookup_assign, lookup_assign]
  have h1 : lookup k [("path", JSVal.str p), ("cache", JSVal.cache c.1 c.2)] = none := by
    simp [lookup, Ne.symm hp, Ne.symm hc]
  rw [h1]
  cases lookup k (o.getD []) <;> simp [lookup]

theorem get_withReplicate (o : Option Obj) :
    Obj.get (withReplicate o) "replicate"
      = (lookup "replicate" (o.getD [])).getD (.bool true) := by
  unfold Obj.get withReplicate
  rw [lookup_assign]
  cases lookup "replicate" (o.getD []) <;> simp [lookup]

/-! ## Inbound messages -/

/-- A message for a registered address calls `sync(heads)` once on the store
registered under it and does nothing else. -/
theorem onMessage_registered (db : State) (A : String) (H : JSVal) (store : Nat)
    (h : lookup A db.stores = some store) :
    _onMessage db A H
      = (.returned (), { db with trace := db.trace ++ [Effect.sync store H] }) := by
  simp [_onMessage, h]

/-- C3, what the code does where the claim fails: a message for an address with
no registration does not return, it throws a TypeError (the read of `sync` on
`undefined`); no call is made and the state is as before. -/
theorem onMessage_unregistered_throws (db : State) (A : String) (H : JSVal)
    (h : lookup A db.stores = none) :
    _onMessage db A H = (.threw .typeError, db) := by
  simp [_onMessage, h]

theorem onMessage_unregistered_throws_witness :
    lookup "A" db0.stores = none ∧
      _onMessage db0 "A" (.obj 1) = (.threw .typeError, db0) :=
  ⟨rfl, onMessage_unregistered_throws db0 "A" (.obj 1) rfl⟩

/-! ## Local writes -/

/-- C9: with a channel attached and heads present, `_onWrite` returns normally
and its only effect is one `setImmediate` of the task `publish(A, H)` (nothing
is published before it returns); that task, run on a coordinator with a channel,
makes exactly the call `publish(A, H)`.  With heads absent (any falsy value)
it throws the heads-not-defined error and leaves the state as it was. -/
theorem onWrite_schedules_one_publish (db : State) (A : String) (hash entry H : JSVal) :
    (truthy H = true → db._pubsub = true →
      _onWrite db A hash entry H
          = (.returned (),
              { db with trace := db.trace ++ [Effect.setImmediate (Task.publish A H)] })
        ∧ ∀ db' : State, db'._pubsub = true →
            runTask db' (Task.publish A H)
              = (.returned (), { db' with trace := db'.trace ++ [Effect.publish A H] }))
    ∧ (truthy H = false → _onWrite db A hash entry H = (.threw .missingHeads, db)) := by
  refine ⟨fun hH hp => ⟨?_, fun db' hp' => ?_⟩, fun hH => ?_⟩
  · simp [_onWrite, hH, hp]
  · simp [runTask, hp']
  · simp [_onWrite, hH]

theorem onWrite_schedules_one_publish_witness :
    (_onWrite db0 "A" (.str "h") (.obj 1) (.obj 2)
        = (.returned (),
            { db0 with
              trace := db0.trace ++ [Effect.setImmediate (Task.publish "A" (.obj 2))] }))
    ∧ _onWrite db0 "A" (.str "h") (.obj 1) .undefined = (.threw .missingHeads, db0) :=
  ⟨((onWrite_schedules_one_publish db0 "A" (.str "h") (.obj 1) (.obj 2)).1 rfl rfl).1,
   (onWrite_schedules_one_publish db0 "A" (.str "h") (.obj 1) .undefined).2 rfl⟩

/-! ## Close and disconnect -/

theorem lookup_deleteKey_ne {κ α : Type} [DecidableEq κ] (k k' : κ) (o : List (κ × α))
    (h : k ≠ k') : lookup k (deleteKey o k') = lookup k o := by
  induction o with
  | nil => simp [deleteKey, lookup]
  | cons x xs ih =>
    obtain ⟨a, b⟩ := x
    unfold deleteKey at ih ⊢
    by_cases ha : a = k'
    · subst ha
      have hak : ¬ a = k := fun e => h e.symm
      rw [List.filter_cons_of_neg (by simp), ih]
      simp [lookup, hak]
    · rw [List.filter_cons_of_pos (by simp [ha])]
      by_cases hak : a = k
      · simp [lookup, hak]
      · simp only [lookup, hak, if_false]
        exact ih

theorem lookup_of_mem_keys {κ α : Type} [DecidableEq κ] (k : κ) (o : List (κ × α))
    (h : k ∈ o.map Prod.fst) : lookup k o ≠ none := by
  induction o with
  | nil => simp at h
  | cons x xs ih =>
    obtain ⟨a, b⟩ := x
    by_cases ha : a = k
    · simp [lookup, ha]
    · have : k ∈ xs.map Prod.fst := by
        simp only [List.map_cons, List.mem_cons] at h
        rcases h with h | h
        · exact absurd h.symm ha
        · exact h
      simpa [lookup, ha] using ih this

/-- The close of a registered address: the channel is unsubscribed when there is
one, the write listeners of the registered store are removed, the address is
deleted from the registry. -/
theorem close_registered (db : State) (A : String) (store : Nat)
    (h : lookup A db.stores = some store) :
    close db A
      = (.returned (),
          { db with
            trace := db.trace ++ (if db._pubsub then [Effect.unsubscribe A] else [])
              ++ [Effect.removeAllListeners store "write"]
            stores := deleteKey db.stores A }) := by
  obtain ⟨ipfs, pubsub, user, network, stores, cache, disk, nextRef, trace⟩ := db
  cases pubsub <;> simp_all [close]

theorem close_returns (db : State) (A : String) (hA : A ∉ objectPrototypeNames) :
    (close db A).1 = .returned () := by
  unfold close
  cases hp : db._pubsub <;> cases hs : lookup A db.stores <;> simp [hs, hA]

/-- The slip in `close`: at an unregistered name inherited from `Object.prototype`
it throws, after the unsubscribe call. -/
theorem close_inherited_throws (db : State) (A : String) (h : lookup A db.stores = none)
    (hA : A ∈ objectPrototypeNames) :
    close db A
      = (.threw .typeError,
          { db with
            trace := db.trace ++ (if db._pubsub then [Effect.unsubscribe A] else []) }) := by
  obtain ⟨ipfs, pubsub, user, network, stores, cache, disk, nextRef, trace⟩ := db
  cases pubsub <;> simp_all [close]

theorem close_unregistered (db : State) (A : String) (h : lookup A db.stores = none) :
    (close db A).2
      = { db with trace := db.trace ++ (if db._pubsub then [Effect.unsubscribe A] else []) } := by
  obtain ⟨ipfs, pubsub, user, network, stores, cache, disk, nextRef, trace⟩ := db
  by_cases hA : A ∈ objectPrototypeNames <;> cases pubsub <;> simp_all [close]

theorem close_unregisters (db : State) (A : String) :
    lookup A (close db A).2.stores = none := by
  unfold close
  by_cases hA : A ∈ objectPrototypeNames <;> cases hp : db._pubsub <;>
    cases hs : lookup A db.stores <;> simp [hs, hA, lookup_deleteKey_self]

theorem close_pubsub (db : State) (A : String) : (close db A).2._pubsub = db._pubsub := by
  obtain ⟨ipfs, pubsub, user, network, stores, cache, disk, nextRef, trace⟩ := db
  by_cases hA : A ∈ objectPrototypeNames <;> cases pubsub <;>
    cases hs : lookup A stores <;> simp_all [close]

theorem close_stores (db : State) (A : String) :
    (close db A).2.stores = deleteKey db.stores A := by
  cases hs : lookup A db.stores with
  | none => rw [close_unregistered db A hs, deleteKey_of_absent A db.stores hs]
  | some store => rw [close_registered db A store hs]

/-- C7, the counterexample: on a coordinator with a channel and `A` open, the
second `close(A)` calls `unsubscribe(A)` again, so two closes do not leave
the side effects of one. -/
theorem close_twice_unsubscribes_twice :
    (close (close db1 "/orbitdb/default/A").2 "/orbitdb/default/A").2.trace
      = (close db1 "/orbitdb/default/A").2.trace
          ++ [Effect.unsubscribe "/orbitdb/default/A"]
    ∧ (close (close db1 "/orbitdb/default/A").2 "/orbitdb/default/A").2
      ≠ (close db1 "/orbitdb/default/A").2
    ∧ (close db0 "A").2 ≠ db0 := by
  decide

theorem subscribed_close (db : State) (A : String) (hp : db._pubsub = true) :
    subscribed (close db A).2.trace
      = (subscribed db.trace).filter (fun a => decide (a ≠ A)) := by
  cases hs : lookup A db.stores with
  | none =>
    rw [close_unregistered db A hs]
    simp [hp, subscribed, List.foldl_append, channelStep]
  | some store =>
    rw [close_registered db A store hs]
    simp [hp, subscribed, List.foldl_append, channelStep]

/-- C7 as amended, for every address `A` that is not one of the names a plain
object inherits from `Object.prototype`: `close(A)` returns normally whether
or not `A` is registered.  When `A` is registered, the close unsubscribes it
(if a channel is attached), removes the write listeners of its store and
deletes it from the registry.  After it `A` is not registered, and a further
`close(A)` returns normally, changes no field of the coordinator and detaches
no listener: its one effect, when a channel is attached, is another
`unsubscribe(A)` call, which leaves the subscriptions of the channel as they
were.  The same holds for `close(A)` on an address that was never opened. -/
theorem close_twice (db : State) (A : String) (hA : A ∉ objectPrototypeNames) :
    (close db A).1 = .returned ()
    ∧ (∀ store, lookup A db.stores = some store →
        (close db A).2
          = { db with
              trace := db.trace ++ (if db._pubsub then [Effect.unsubscribe A] else [])
                ++ [Effect.removeAllListeners store "write"]
              stores := deleteKey db.stores A })
    ∧ lookup A (close db A).2.stores = none
    ∧ close (close db A).2 A
        = (.returned (),
            { (close db A).2 with
              trace := (close db A).2.trace
                ++ (if db._pubsub then [Effect.unsubscribe A] else []) })
    ∧ subscribed (close (close db A).2 A).2.trace = subscribed (close db A).2.trace
    ∧ (lookup A db.stores = none →
        close db A
          = (.returned (),
              { db with
                trace := db.trace
                  ++ (if db._pubsub then [Effect.unsubscribe A] else []) })) := by
  have h3 : (close (close db A).2 A).2
      = { (close db A).2 with
          trace := (close db A).2.trace
            ++ (if db._pubsub then [Effect.unsubscribe A] else []) } := by
    rw [close_unregistered _ A (close_unregisters db A)]
    simp [close_pubsub]
  refine ⟨close_returns db A hA, fun store hs => ?_, close_unregisters db A,
    Prod.ext (close_returns _ A hA) h3, ?_,
    fun hs => Prod.ext (close_returns db A hA) (close_unregistered db A hs)⟩
  · rw [close_registered db A store hs]
  · rw [h3]
    cases hp : db._pubsub with
    | false => simp
    | true =>
      have e : subscribed ((close db A).2.trace ++ [Effect.unsubscribe A])
          = (subscribed (close db A).2.trace).filter (fun a => decide (a ≠ A)) := by
        simp [subscribed, List.foldl_append, channelStep]
      simp only [if_true]
      rw [e, subscribed_close db A hp, List.filter_filter]
      simp

theorem close_twice_witness :
    "/orbitdb/default/A" ∉ objectPrototypeNames
    ∧ lookup "/orbitdb/default/A" db1.stores = some 0
    ∧ (close db1 "/orbitdb/default/A").2
        = { db1 with
            trace := db1.trace ++ [Effect.unsubscribe "/orbitdb/default/A",
              Effect.removeAllListeners 0 "write"]
            stores := [] }
    ∧ close (close db1 "/orbitdb/default/A").2 "/orbitdb/default/A"
        = (.returned (),
            { db1 with
              trace := db1.trace ++ [Effect.unsubscribe "/orbitdb/default/A",
                Effect.removeAllListeners 0 "write", Effect.unsubscribe "/orbitdb/default/A"]
              stores := [] })
    ∧ close db0 "A" = (.returned (), { db0 with trace := [Effect.unsubscribe "A"] }) :=
  ⟨by decide, by decide,
   (close_twice db1 "/orbitdb/default/A" (by decide)).2.1 0 (by decide),
   (close_twice db1 "/orbitdb/default/A" (by decide)).2.2.2.1,
   (close_twice db0 "A" (by decide)).2.2.2.2.2 rfl⟩

/-! ### Disconnect -/

theorem ownKeys_perm {α : Type} (o : List (String × α)) :
    (ownKeys o).Perm (o.map Prod.fst).dedup := by
  unfold ownKeys
  exact ((List.perm_insertionSort _ _).append_right _).trans (List.filter_append_perm _ _)

theorem ownKeys_nodup {α : Type} (o : List (String × α)) : (ownKeys o).Nodup :=
  (ownKeys_perm o).nodup_iff.2 (List.nodup_dedup _)

theorem lookup_of_mem_ownKeys {α : Type} (o : List (String × α)) (k : String)
    (h : k ∈ ownKeys o) : lookup k o ≠ none :=
  lookup_of_mem_keys k o (List.mem_dedup.1 ((ownKeys_perm o).mem_iff.1 h))

/-- The loop of `disconnect` over distinct registered addresses runs to its end. -/
theorem closeAll_returns (ks : List String) (db : State) (hn : ks.Nodup)
    (hr : ∀ k ∈ ks, lookup k db.stores ≠ none) :
    (closeAll db ks).1 = .returned () := by
  induction ks generalizing db with
  | nil => rfl
  | cons e es ih =>
    obtain ⟨store, hs⟩ := Option.ne_none_iff_exists'.1 (hr e (List.mem_cons_self e es))
    have hc := close_registered db e store hs
    have hne : ∀ k ∈ es, k ≠ e := fun k hk heq =>
      (List.nodup_cons.1 hn).1 (heq ▸ hk)
    simp only [closeAll, hc]
    apply ih _ (List.nodup_cons.1 hn).2
    intro k hk
    simp only
    rw [lookup_deleteKey_ne k e db.stores (hne k hk)]
    exact hr k (List.mem_cons_of_mem e hk)

theorem disconnect_eq (db : State) :
    disconnect db
      = (.returned (),
          { (closeAll db (ownKeys db.stores)).2 with
            trace := (closeAll db (ownKeys db.stores)).2.trace
              ++ (if (closeAll db (ownKeys db.stores)).2._pubsub
                  then [Effect.pubsubDisconnect] else [])
            stores := [], user := none, network := none }) := by
  have h := closeAll_returns (ownKeys db.stores) db (ownKeys_nodup db.stores)
    (fun k hk => lookup_of_mem_ownKeys db.stores k hk)
  unfold disconnect
  generalize closeAll db (ownKeys db.stores) = r at h ⊢
  obtain ⟨c, d⟩ := r
  simp only at h
  subst h
  obtain ⟨ipfs, pubsub, user, network, stores, cache, disk, nextRef, trace⟩ := d
  cases pubsub <;> simp

theorem disconnect_fields (db : State) :
    (disconnect db).1 = .returned () ∧ (disconnect db).2.stores = []
      ∧ (disconnect db).2.user = none ∧ (disconnect db).2.network = none := by
  rw [disconnect_eq]
  exact ⟨rfl, rfl, rfl, rfl⟩

theorem createStore_dead (env : Env) (db : State) (S : StoreClass) (n : String)
    (o : Option Obj) (h : db.user = none) :
    _createStore env db S n o = (.threw .typeError, db) := by
  simp [_createStore, h]

/-- C8, the counterexample: after `disconnect()` a `close` does not fail, it
returns normally. -/
theorem close_after_disconnect_completes :
    (close (disconnect db1).2 "/orbitdb/default/A").1 = .returned ()
    ∧ Completion.fails (close (disconnect db1).2 "/orbitdb/default/A").1 = false := by
  decide

/-- C8 as amended: `disconnect()` returns with the registry empty and `user`
and `network` null.  On the coordinator it leaves, `create`, `load` and the
five factory methods fail: each throws a TypeError at the read of `this.user.id`
and changes nothing.  `close(A)` does not fail there for an address `A` (any
name that a plain object does not inherit from `Object.prototype`): it returns
normally, its only effect being the `unsubscribe` call when the channel field
is still set. -/
theorem disconnect_invalidates (env : Env) (db : State) :
    (disconnect db).1 = .returned ()
    ∧ (disconnect db).2.stores = []
    ∧ (disconnect db).2.user = none
    ∧ (disconnect db).2.network = none
    ∧ (∀ A T dir o,
        create env (disconnect db).2 A T dir o = (.threw .typeError, (disconnect db).2))
    ∧ (∀ A dir o, load env (disconnect db).2 A dir o = (.threw .typeError, (disconnect db).2))
    ∧ (∀ n o,
        feed env (disconnect db).2 n o = (.threw .typeError, (disconnect db).2)
        ∧ eventlog env (disconnect db).2 n o = (.threw .typeError, (disconnect db).2)
        ∧ kvstore env (disconnect db).2 n o = (.threw .typeError, (disconnect db).2)
        ∧ counter env (disconnect db).2 n o = (.threw .typeError, (disconnect db).2)
        ∧ docstore env (disconnect db).2 n o = (.threw .typeError, (disconnect db).2))
    ∧ (∀ A, A ∉ objectPrototypeNames →
        close (disconnect db).2 A
          = (.returned (),
              { (disconnect db).2 with
                trace := (disconnect db).2.trace
                  ++ (if (disconnect db).2._pubsub then [Effect.unsubscribe A] else []) })) := by
  obtain ⟨h1, h2, h3, h4⟩ := disconnect_fields db
  refine ⟨h1, h2, h3, h4, ?_, ?_, ?_, ?_⟩
  · intro A T dir o
    simp [create, h3]
  · intro A dir o
    simp [load, h3]
  · intro n o
    simp [feed, eventlog, kvstore, counter, docstore, createStore_dead, h3]
  · intro A hA
    have hl : lookup A (disconnect db).2.stores = none := by rw [h2]; rfl
    exact Prod.ext (close_returns (disconnect db).2 A hA)
      (close_unregistered (disconnect db).2 A hl)

theorem disconnect_invalidates_witness :
    (disconnect db1).2.stores = []
    ∧ create sampleEnv (disconnect db1).2 "A" (.str "feed") none none
        = (.threw .typeError, (disconnect db1).2)
    ∧ close (disconnect db1).2 "/orbitdb/default/A"
        = (.returned (),
            { (disconnect db1).2 with
              trace := (disconnect db1).2.trace
                ++ [Effect.unsubscribe "/orbitdb/default/A"] }) :=
  ⟨(disconnect_invalidates sampleEnv db1).2.1,
   (disconnect_invalidates sampleEnv db1).2.2.2.2.1 "A" (.str "feed") none none,
   (disconnect_invalidates sampleEnv db1).2.2.2.2.2.2.2 "/orbitdb/default/A" (by decide)⟩

/-! ## Load of an address with no recorded type -/

/-- C5: on a live coordinator, when the cache has no (truthy) value at the type
key of `A`, as when the key is unset and reads `undefined`, and the options,
present or not, carry no (truthy) `type`, the promise of `load` is rejected
with the does-not-exist error for the address.  Only the `_cache` field has
changed: no store is constructed, nothing is registered, nothing is written. -/
theorem load_unrecorded_fails (env : Env) (db : State) (A : String) (dir : Option String)
    (options : Option Obj) (id : String)
    (hu : db.user = some id)
    (hrec : truthy (Cache.get db.disk (cachePath env dir, cacheName (env.parseAddress A id))
      (env.parseAddress A id ++ ".type")) = false)
    (hno : truthy (Obj.get (options.getD []) "type") = false) :
    load env db A dir options
      = (.rejected (.notFound (env.parseAddress A id)),
          { db with _cache := some (cachePath env dir, cacheName (env.parseAddress A id)) }) := by
  have hm := get_withCache options (cachePath env dir)
    (cachePath env dir, cacheName (env.parseAddress A id)) "type" (by decide) (by decide)
  simp [load, hu, hrec, hm, hno]

theorem load_unrecorded_fails_witness :
    load sampleEnv db0 "A" none none
      = (.rejected (.notFound "/orbitdb/default/A"),
          { db0 with _cache := some ("orbitdb", "/default/A") })
    ∧ load sampleEnv db0 "A" none (some [("replicate", .bool false)])
      = (.rejected (.notFound "/orbitdb/default/A"),
          { db0 with _cache := some ("orbitdb", "/default/A") }) :=
  ⟨load_unrecorded_fails sampleEnv db0 "A" none none "default" rfl rfl rfl,
   load_unrecorded_fails sampleEnv db0 "A" none (some [("replicate", .bool false)])
     "default" rfl rfl rfl⟩

/-! ## Store construction and type dispatch -/

theorem createStore_live (env : Env) (db : State) (S : StoreClass) (n : String)
    (o : Option Obj) (id : String) (hu : db.user = some id) :
    _createStore env db S n o
      = (.returned db.nextRef,
          { db with
            nextRef := db.nextRef + 1
            stores := setKey db.stores (env.parseAddress n id) db.nextRef
            trace := db.trace
              ++ [Effect.construct db.nextRef S db._ipfs id n (withReplicate o),
                  Effect.on db.nextRef "write" Handler._onWrite,
                  Effect.on db.nextRef "ready" Handler._onReady]
              ++ (if truthy (Obj.get (withReplicate o) "replicate") && db._pubsub
                  then [Effect.subscribe (env.parseAddress n id) Handler._onMessage]
                  else []) }) := by
  unfold _createStore
  simp only [hu]
  by_cases h : (truthy (Obj.get (withReplicate o) "replicate") && db._pubsub) = true
  · simp [h]
  · simp [h]

theorem storeClassOf_known (T : String) (h : T ∈ types) : ∃ S, storeClassOf T = some S := by
  simp [types] at h
  rcases h with h | h | h | h | h <;> subst h <;> exact ⟨_, rfl⟩

theorem isValidType_str (T : String) : isValidType types (.str T) = true ↔ T ∈ types := by
  simp only [isValidType, List.any_eq_true, decide_eq_true_eq, JSVal.str.injEq]
  constructor
  · rintro ⟨x, hx, rfl⟩
    exact hx
  · intro h
    exact ⟨T, h, rfl⟩

theorem isValidType_true (t : JSVal) (h : isValidType types t = true) :
    ∃ T, t = .str T ∧ T ∈ types := by
  simp only [isValidType, List.any_eq_true, decide_eq_true_eq] at h
  obtain ⟨T, hT, rfl⟩ := h
  exact ⟨T, rfl, hT⟩

theorem openDatabase_known (env : Env) (db : State) (n : String) (T : String)
    (o : Option Obj) (S : StoreClass) (h : storeClassOf T = some S) :
    _openDatabase env db n (.str T) o = _createStore env db S n o := by
  unfold storeClassOf at h
  unfold _openDatabase
  split_ifs at h with h1 h2 h3 h4 h5 <;> simp at h <;> subst h <;>
    simp_all [counter, eventlog, feed, docstore, kvstore]

theorem known_type_truthy (T : String) (h : T ∈ types) : truthy (.str T) = true := by
  simp [types] at h
  rcases h with h | h | h | h | h <;> subst h <;> decide

theorem storeClassOf_mem (T : String) (S : StoreClass) (h : storeClassOf T = some S) :
    T ∈ types := by
  unfold storeClassOf at h
  split_ifs at h with h1 h2 h3 h4 h5 <;> simp_all [types]

theorem not_valid_of_unknown (t : JSVal) (h : ∀ s ∈ types, t ≠ .str s) :
    isValidType types t = false := by
  cases hv : isValidType types t with
  | false => rfl
  | true =>
    obtain ⟨T, hT, hmem⟩ := isValidType_true t hv
    exact absurd hT (h T hmem)

/-! ## Create -/

/-- The run of `create` that passes both checks: the record is written and the
store of the class of the type is opened on the parsed address. -/
theorem create_success (env : Env) (db : State) (A T : String) (dir : Option String)
    (o : Option Obj) (id : String) (S : StoreClass)
    (hu : db.user = some id)
    (hm : truthy (Cache.get db.disk (cachePath env dir, cacheName (env.parseAddress A id))
      (env.parseAddress A id)) = false)
    (hS : storeClassOf T = some S) :
    create env db A (.str T) dir o
      = (.resolved db.nextRef,
          (_createStore env
            (writeRecord
              { db with _cache := some (cachePath env dir, cacheName (env.parseAddress A id)) }
              (cachePath env dir, cacheName (env.parseAddress A id))
              (env.parseAddress A id) (.str T))
            S (env.parseAddress A id)
            (some (withCache o (cachePath env dir)
              (cachePath env dir, cacheName (env.parseAddress A id))))).2) := by
  have hv : isValidType types (.str T) = true :=
    (isValidType_str T).2 (storeClassOf_mem T S hS)
  unfold create
  simp only [hu, hm, hv, openDatabase_known env _ _ T _ S hS]
  rw [createStore_live env _ S _ _ id (by simp [writeRecord, hu])]
  simp [writeRecord]

theorem create_not_valid (env : Env) (db : State) (A : String) (t : JSVal)
    (dir : Option String) (o : Option Obj) (id : String)
    (hu : db.user = some id)
    (hm : truthy (Cache.get db.disk (cachePath env dir, cacheName (env.parseAddress A id))
      (env.parseAddress A id)) = false)
    (hv : isValidType types t = false) :
    create env db A t dir o
      = (.rejected (.invalidType t),
          { db with _cache := some (cachePath env dir, cacheName (env.parseAddress A id)) }) := by
  simp [create, hu, hm, hv]

/-- What a fulfilled `create` tells about its input. -/
theorem create_resolved_inv (env : Env) (db : State) (A : String) (t : JSVal)
    (dir : Option String) (o : Option Obj) (store : Nat)
    (h : (create env db A t dir o).1 = .resolved store) :
    ∃ id T S, db.user = some id ∧ t = .str T ∧ storeClassOf T = some S
      ∧ truthy (Cache.get db.disk (cachePath env dir, cacheName (env.parseAddress A id))
          (env.parseAddress A id)) = false
      ∧ store = db.nextRef := by
  cases hu : db.user with
  | none => simp [create, hu] at h
  | some id =>
    cases hm : truthy (Cache.get db.disk (cachePath env dir, cacheName (env.parseAddress A id))
        (env.parseAddress A id)) with
    | true => simp [create, hu, hm] at h
    | false =>
      cases hv : isValidType types t with
      | false => simp [create, hu, hm, hv] at h
      | true =>
        obtain ⟨T, rfl, hmem⟩ := isValidType_true t hv
        obtain ⟨S, hS⟩ := storeClassOf_known T hmem
        rw [create_success env db A T dir o id S hu hm hS] at h
        simp at h
        exact ⟨id, T, S, rfl, rfl, hS, hm, h.symm⟩

/-- C10: on a live coordinator, when the cache holds no (truthy) value at the
bare address and the type is none of the five known ones, the promise of
`create` is rejected with the invalid-type error; only the `_cache` field has
changed, so no cache key is written, no store is constructed and nothing is
registered.  Each of the five known types passes `isValidType`, and
`_openDatabase` routes it to `_createStore` without an unknown-type error: it
returns the new store on a live coordinator. -/
theorem create_invalid_type_rejected (env : Env) (db : State) (A : String) (t : JSVal)
    (dir : Option String) (options : Option Obj) (id : String)
    (hu : db.user = some id)
    (hmark : truthy (Cache.get db.disk (cachePath env dir, cacheName (env.parseAddress A id))
      (env.parseAddress A id)) = false)
    (hbad : ∀ s ∈ types, t ≠ .str s) :
    create env db A t dir options
      = (.rejected (.invalidType t),
          { db with _cache := some (cachePath env dir, cacheName (env.parseAddress A id)) })
    ∧ ∀ s ∈ types, isValidType types (.str s) = true
        ∧ (∀ (db' : State) (n : String) (o : Option Obj) (e : JSVal),
            (_openDatabase env db' n (.str s) o).1 ≠ .threw (.unknownType e))
        ∧ (∀ (db' : State) (n : String) (o : Option Obj) (id' : String),
            db'.user = some id' →
              (_openDatabase env db' n (.str s) o).1 = .returned db'.nextRef) := by
  refine ⟨?_, fun s hs => ⟨(isValidType_str s).2 hs, ?_, ?_⟩⟩
  · exact create_not_valid env db A t dir options id hu hmark (not_valid_of_unknown t hbad)
  · intro db' n o e
    obtain ⟨S, hS⟩ := storeClassOf_known s hs
    rw [openDatabase_known env db' n s o S hS]
    cases hu' : db'.user with
    | none => simp [createStore_dead env db' S n o hu']
    | some id' => simp [createStore_live env db' S n o id' hu']
  · intro db' n o id' hu'
    obtain ⟨S, hS⟩ := storeClassOf_known s hs
    rw [openDatabase_known env db' n s o S hS, createStore_live env db' S n o id' hu']

theorem create_invalid_type_rejected_witness :
    create sampleEnv db0 "A" (.str "table") none none
      = (.rejected (.invalidType (.str "table")),
          { db0 with _cache := some ("orbitdb", "/default/A") }) :=
  (create_invalid_type_rejected sampleEnv db0 "A" (.str "table") none none "default"
    rfl rfl (by decide)).1

theorem create_success_state (env : Env) (db : State) (A T : String) (dir : Option String)
    (o : Option Obj) (id : String) (S : StoreClass)
    (hu : db.user = some id)
    (hm : truthy (Cache.get db.disk (cachePath env dir, cacheName (env.parseAddress A id))
      (env.parseAddress A id)) = false)
    (hS : storeClassOf T = some S) :
    (create env db A (.str T) dir o).2.user = some id
    ∧ (create env db A (.str T) dir o).2.nextRef = db.nextRef + 1
    ∧ (create env db A (.str T) dir o).2._cache
        = some (cachePath env dir, cacheName (env.parseAddress A id))
    ∧ (create env db A (.str T) dir o).2.disk
        = Cache.set (Cache.set (Cache.set db.disk
            (cachePath env dir, cacheName (env.parseAddress A id))
            (env.parseAddress A id ++ ".type") (.str T))
            (cachePath env dir, cacheName (env.parseAddress A id))
            (env.parseAddress A id ++ ".localhead") .null)
            (cachePath env dir, cacheName (env.parseAddress A id))
            (env.parseAddress A id ++ ".remotehead") .null := by
  rw [create_success env db A T dir o id S hu hm hS,
    createStore_live env _ S _ _ id (by simp [writeRecord, hu])]
  simp [writeRecord, hu]

/-- C1, what the code does where the claim fails: after a fulfilled
`create(A, t1)` the bare key `A` of the cache is as it was (falsy), since
`create` wrote the keys `A.type`, `A.localhead` and `A.remotehead` only.  A
following `create(A, t2)` with the same directory therefore passes the
existence check and is never rejected as already existing: for a known `t2`
it is fulfilled with a second store, for any other `t2` it is rejected as an
invalid type. -/
theorem create_twice_passes_guard (env : Env) (db : State) (A : String) (t1 t2 : JSVal)
    (dir : Option String) (o1 o2 : Option Obj) (store : Nat)
    (hc : (create env db A t1 dir o1).1 = .resolved store) :
    (∀ addr, (create env (create env db A t1 dir o1).2 A t2 dir o2).1
        ≠ .rejected (.alreadyExists addr))
    ∧ (isValidType types t2 = true →
        (create env (create env db A t1 dir o1).2 A t2 dir o2).1 = .resolved (store + 1))
    ∧ (isValidType types t2 = false →
        (create env (create env db A t1 dir o1).2 A t2 dir o2).1
          = .rejected (.invalidType t2)) := by
  obtain ⟨id, T, S, hu, rfl, hS, hm, rfl⟩ := create_resolved_inv env db A t1 dir o1 store hc
  obtain ⟨hu1, hn1, _, hd1⟩ := create_success_state env db A T dir o1 id S hu hm hS
  have hm1 : truthy (Cache.get (create env db A (.str T) dir o1).2.disk
      (cachePath env dir, cacheName (env.parseAddress A id)) (env.parseAddress A id)) = false := by
    rw [hd1, Cache.get_after_create_sets]
    exact hm
  have hyes : isValidType types t2 = true →
      (create env (create env db A (.str T) dir o1).2 A t2 dir o2).1
        = .resolved (db.nextRef + 1) := by
    intro hv
    obtain ⟨T2, rfl, hmem⟩ := isValidType_true t2 hv
    obtain ⟨S2, hS2⟩ := storeClassOf_known T2 hmem
    rw [create_success env _ A T2 dir o2 id S2 hu1 hm1 hS2, hn1]
  have hno : isValidType types t2 = false →
      (create env (create env db A (.str T) dir o1).2 A t2 dir o2).1
        = .rejected (.invalidType t2) := by
    intro hv
    rw [create_not_valid env _ A t2 dir o2 id hu1 hm1 hv]
  refine ⟨fun addr => ?_, hyes, hno⟩
  cases hv : isValidType types t2 with
  | true => rw [hyes hv]; simp
  | false => rw [hno hv]; simp

theorem create_twice_passes_guard_witness :
    (create sampleEnv db0 "A" (.str "feed") none none).1 = .resolved 0
    ∧ (create sampleEnv (create sampleEnv db0 "A" (.str "feed") none none).2 "A"
        (.str "counter") none none).1 = .resolved 1
    ∧ (create sampleEnv (create sampleEnv db0 "A" (.str "feed") none none).2 "A"
        (.str "feed") none none).1 = .resolved 1 :=
  ⟨rfl,
   (create_twice_passes_guard sampleEnv db0 "A" (.str "feed") (.str "counter") none none none
      0 rfl).2.1 (by decide),
   (create_twice_passes_guard sampleEnv db0 "A" (.str "feed") (.str "feed") none none none
      0 rfl).2.1 (by decide)⟩

/-! ## Load -/

/-- The third branch of `load`: a recorded known type and no `type` in the
options.  The store is opened, and the promise is fulfilled with `undefined`,
the value of a callback that ends without `return`. -/
theorem load_recorded (env : Env) (db : State) (A : String) (dir : Option String)
    (options : Option Obj) (id T : String) (S : StoreClass)
    (hu : db.user = some id)
    (hrec : Cache.get db.disk (cachePath env dir, cacheName (env.parseAddress A id))
      (env.parseAddress A id ++ ".type") = .str T)
    (hS : storeClassOf T = some S)
    (hno : truthy (Obj.get (options.getD []) "type") = false) :
    load env db A dir options
      = (.resolved none,
          (_createStore env
            { db with _cache := some (cachePath env dir, cacheName (env.parseAddress A id)) }
            S (env.parseAddress A id)
            (some (withCache options (cachePath env dir)
              (cachePath env dir, cacheName (env.parseAddress A id))))).2) := by
  have hm := get_withCache options (cachePath env dir)
    (cachePath env dir, cacheName (env.parseAddress A id)) "type" (by decide) (by decide)
  have ht : truthy (.str T) = true := known_type_truthy T (storeClassOf_mem T S hS)
  unfold load
  simp only [hu, hrec, hm, hno, ht, openDatabase_known env _ _ T _ S hS]
  rw [createStore_live env _ S _ _ id (by simp [hu])]
  simp

/-- C2, what the code does where the claim fails: after a fulfilled
`create(A, t)`, a `load(A)` with the same directory and no `type` in its
options does construct and register a store of the class of the recorded
type, but the promise it returns is fulfilled with `undefined`, not with that
store. -/
theorem load_after_create_resolves_undefined (env : Env) (db : State) (A : String)
    (t : JSVal) (dir : Option String) (o1 options : Option Obj) (store : Nat)
    (hc : (create env db A t dir o1).1 = .resolved store)
    (hno : truthy (Obj.get (options.getD []) "type") = false) :
    (load env (create env db A t dir o1).2 A dir options).1 = .resolved none
    ∧ ∃ id T S, db.user = some id ∧ t = .str T ∧ storeClassOf T = some S
        ∧ (load env (create env db A t dir o1).2 A dir options).2
          = (_createStore env
              { (create env db A t dir o1).2 with
                _cache := some (cachePath env dir, cacheName (env.parseAddress A id)) }
              S (env.parseAddress A id)
              (some (withCache options (cachePath env dir)
                (cachePath env dir, cacheName (env.parseAddress A id))))).2 := by
  obtain ⟨id, T, S, hu, rfl, hS, hm, rfl⟩ := create_resolved_inv env db A t dir o1 store hc
  obtain ⟨hu1, _, _, hd1⟩ := create_success_state env db A T dir o1 id S hu hm hS
  have hrec : Cache.get (create env db A (.str T) dir o1).2.disk
      (cachePath env dir, cacheName (env.parseAddress A id))
      (env.parseAddress A id ++ ".type") = .str T := by
    rw [hd1, Cache.get_type_after_create_sets]
  have hl := load_recorded env _ A dir options id T S hu1 hrec hS hno
  exact ⟨by rw [hl], id, T, S, hu, rfl, hS, by rw [hl]⟩

theorem load_after_create_resolves_undefined_witness :
    (create sampleEnv db0 "A" (.str "feed") none none).1 = .resolved 0
    ∧ (load sampleEnv (create sampleEnv db0 "A" (.str "feed") none none).2 "A" none none).1
        = .resolved none :=
  ⟨rfl,
   (load_after_create_resolves_undefined sampleEnv db0 "A" (.str "feed") none none none 0
      rfl rfl).1⟩

/-! ## Create through load -/

theorem create_success_created (env : Env) (db : State) (A T : String) (dir : Option String)
    (o : Option Obj) (id : String) (S : StoreClass)
    (hu : db.user = some id)
    (hm : truthy (Cache.get db.disk (cachePath env dir, cacheName (env.parseAddress A id))
      (env.parseAddress A id)) = false)
    (hS : storeClassOf T = some S)
    (hr : truthy (Obj.get (withReplicate (some (withCache o (cachePath env dir)
      (cachePath env dir, cacheName (env.parseAddress A id))))) "replicate") = true) :
    create env db A (.str T) dir o
      = (.resolved db.nextRef,
          created env db A T S dir id
            (withReplicate (some (withCache o (cachePath env dir)
              (cachePath env dir, cacheName (env.parseAddress A id)))))) := by
  rw [create_success env db A T dir o id S hu hm hS,
    createStore_live env _ S _ _ id (by simp [writeRecord, hu])]
  simp [writeRecord, created, hr]

/-- C6, the counterexample: the store that `load(A, dir, { type, create: true })`
constructs does not get the options that `create(A, type, dir, {})` hands to
its store, so the two runs do not leave the same trace of calls. -/
theorem load_fallback_options_differ :
    (load sampleEnv db0 "A" none
        (some [("type", .str "feed"), ("create", .bool true)])).2.trace
      ≠ (create sampleEnv db0 "A" (.str "feed") none (some [])).2.trace
    ∧ (load sampleEnv db0 "A" none
        (some [("type", .str "feed"), ("create", .bool true)])).2
      = created sampleEnv db0 "A" "feed" .FeedStore none "default"
          [("replicate", .bool true), ("type", .str "feed"), ("create", .bool true),
           ("path", .str "orbitdb"), ("cache", .cache "orbitdb" "/default/A")]
    ∧ (create sampleEnv db0 "A" (.str "feed") none (some [])).2
      = created sampleEnv db0 "A" "feed" .FeedStore none "default"
          [("replicate", .bool true),
           ("path", .str "orbitdb"), ("cache", .cache "orbitdb" "/default/A")] := by
  decide

/-- C6 as amended: on a live coordinator whose cache has no (truthy) value at
the bare address `A`, for a known type `T`, both
`load(A, dir, { type: T, create: true })` and `create(A, T, dir, {})` are
fulfilled with the same new store, of the class of `T`, constructed with the
same ipfs handle, owner id and name, and leave the same cache contents
(`A.type = T`, `A.localhead` and `A.remotehead` null), the same registry, the
same listeners and the same subscription.  The options object given to the
store constructor is not the same: `create` passes `replicate`, `path` and
`cache`, the run through `load` passes `type: T` and `create: true` as well. -/
theorem load_create_fallback (env : Env) (db : State) (A T : String) (dir : Option String)
    (id : String) (S : StoreClass)
    (hu : db.user = some id)
    (hm : truthy (Cache.get db.disk (cachePath env dir, cacheName (env.parseAddress A id))
      (env.parseAddress A id)) = false)
    (hS : storeClassOf T = some S) :
    load env db A dir (some [("type", .str T), ("create", .bool true)])
      = (.resolved (some db.nextRef),
          created env db A T S dir id
            [("replicate", .bool true), ("type", .str T), ("create", .bool true),
             ("path", .str (cachePath env dir)),
             ("cache", .cache (cachePath env dir) (cacheName (env.parseAddress A id)))])
    ∧ create env db A (.str T) dir (some [])
      = (.resolved db.nextRef,
          created env db A T S dir id
            [("replicate", .bool true),
             ("path", .str (cachePath env dir)),
             ("cache", .cache (cachePath env dir) (cacheName (env.parseAddress A id)))])
    ∧ ∀ opts : Obj,
        Cache.get (created env db A T S dir id opts).disk
            (cachePath env dir, cacheName (env.parseAddress A id))
            (env.parseAddress A id ++ ".type") = .str T
        ∧ Cache.get (created env db A T S dir id opts).disk
            (cachePath env dir, cacheName (env.parseAddress A id))
            (env.parseAddress A id ++ ".localhead") = .null
        ∧ Cache.get (created env db A T S dir id opts).disk
            (cachePath env dir, cacheName (env.parseAddress A id))
            (env.parseAddress A id ++ ".remotehead") = .null := by
  have ht : truthy (.str T) = true := known_type_truthy T (storeClassOf_mem T S hS)
  refine ⟨?_, ?_, fun opts => ⟨?_, ?_, ?_⟩⟩
  · obtain ⟨ipfs, pubsub, user, network, stores, cache, disk, nextRef, trace⟩ := db
    simp only at hu hm
    subst hu
    have hty : Obj.get (withCache (some [("type", JSVal.str T), ("create", JSVal.bool true)])
        (cachePath env dir) (cachePath env dir, cacheName (env.parseAddress A id))) "type"
        = .str T := by
      simp [withCache, Obj.get, assign, lookup]
    have hcr : Obj.get (withCache (some [("type", JSVal.str T), ("create", JSVal.bool true)])
        (cachePath env dir) (cachePath env dir, cacheName (env.parseAddress A id))) "create"
        = .bool true := by
      simp [withCache, Obj.get, assign, lookup]
    have hc := create_success_created env
      { _ipfs := ipfs, _pubsub := pubsub, user := some id, network := network, stores := stores,
        _cache := some (cachePath env dir, cacheName (env.parseAddress A id)), disk := disk,
        nextRef := nextRef, trace := trace }
      A T dir
      (some (withCache (some [("type", JSVal.str T), ("create", JSVal.bool true)])
        (cachePath env dir) (cachePath env dir, cacheName (env.parseAddress A id))))
      id S rfl hm hS (by simp [withReplicate, withCache, Obj.get, assign, lookup, truthy])
    unfold load
    simp only [hty, hcr, ht, hc]
    simp [created, withReplicate, withCache, assign, lookup]
  · rw [create_success_created env db A T dir (some []) id S hu hm hS
      (by simp [withReplicate, withCache, Obj.get, assign, lookup, truthy])]
    simp [withReplicate, withCache, assign, lookup]
  · simp [created, Cache.get_set, localhead_ne_type, remotehead_ne_type]
  · simp [created, Cache.get_set, remotehead_ne_localhead]
  · simp [created, Cache.get_set]

theorem load_create_fallback_witness :
    load sampleEnv db0 "A" none (some [("type", .str "feed"), ("create", .bool true)])
      = (.resolved (some 0),
          created sampleEnv db0 "A" "feed" .FeedStore none "default"
            [("replicate", .bool true), ("type", .str "feed"), ("create", .bool true),
             ("path", .str "orbitdb"), ("cache", .cache "orbitdb" "/default/A")]) :=
  (load_create_fallback sampleEnv db0 "A" "feed" none "default" .FeedStore rfl rfl rfl).1

/-! ## Stores opened without replication -/

/-- C4, the counterexample: a store opened with `replicate: false` is not
subscribed, but a write it reports with heads is scheduled for publishing like
any other, and the scheduled task publishes it on the channel. -/
theorem unreplicated_write_is_published :
    dbU.trace
      = [Effect.construct 0 .FeedStore (.obj 0) "default" "A" [("replicate", .bool false)],
         Effect.on 0 "write" Handler._onWrite, Effect.on 0 "ready" Handler._onReady]
    ∧ (_onWrite dbU "A" (.str "hash") (.obj 1) (.obj 2)).2.trace
      = dbU.trace ++ [Effect.setImmediate (Task.publish "A" (.obj 2))]
    ∧ (runTask (_onWrite dbU "A" (.str "hash") (.obj 1) (.obj 2)).2
        (Task.publish "A" (.obj 2))).2.trace
      = dbU.trace ++ [Effect.setImmediate (Task.publish "A" (.obj 2)),
          Effect.publish "A" (.obj 2)] := by
  decide

/-- C4 as amended: on a live coordinator `_createStore` with
`options.replicate = false` constructs the store with `replicate: false`,
attaches the write and the ready listener and registers the store, and makes
no `subscribe` call.  The write listener it attaches is `_onWrite`, which does
not look at the option: on any later state with a channel attached, a write
notification with heads present publishes nothing before it returns and
schedules one deferred `publish(A, H)`. -/
theorem unreplicated_store_isolation (env : Env) (db : State) (S : StoreClass) (n : String)
    (options : Obj) (id : String)
    (hu : db.user = some id)
    (hrep : Obj.get options "replicate" = .bool false) :
    _createStore env db S n (some options)
      = (.returned db.nextRef,
          { db with
            nextRef := db.nextRef + 1
            stores := setKey db.stores (env.parseAddress n id) db.nextRef
            trace := db.trace
              ++ [Effect.construct db.nextRef S db._ipfs id n (withReplicate (some options)),
                  Effect.on db.nextRef "write" Handler._onWrite,
                  Effect.on db.nextRef "ready" Handler._onReady] })
    ∧ Obj.get (withReplicate (some options)) "replicate" = .bool false
    ∧ ∀ (db' : State) (A : String) (hash entry H : JSVal),
        truthy H = true → db'._pubsub = true →
          _onWrite db' A hash entry H
            = (.returned (),
                { db' with
                  trace := db'.trace ++ [Effect.setImmediate (Task.publish A H)] }) := by
  have hl : lookup "replicate" options = some (.bool false) := by
    unfold Obj.get at hrep
    cases h : lookup "replicate" options with
    | none => simp [h] at hrep
    | some v => simpa [h] using hrep
  have hg : Obj.get (withReplicate (some options)) "replicate" = .bool false := by
    rw [get_withReplicate]
    simp [hl]
  refine ⟨?_, hg, ?_⟩
  · rw [createStore_live env db S n (some options) id hu, hg]
    simp [truthy]
  · intro db' A hash entry H hH hp
    simp [_onWrite, hH, hp]

theorem unreplicated_store_isolation_witness :
    _createStore sampleEnv db0 .FeedStore "A" (some [("replicate", .bool false)])
      = (.returned 0,
          { db0 with
            nextRef := 1
            stores := [("/orbitdb/default/A", 0)]
            trace := [Effect.construct 0 .FeedStore (.obj 0) "default" "A"
                        [("replicate", .bool false)],
                      Effect.on 0 "write" Handler._onWrite,
                      Effect.on 0 "ready" Handler._onReady] }) :=
  (unreplicated_store_isolation sampleEnv db0 .FeedStore "A" [("replicate", .bool false)]
    "default" rfl rfl).1

end OrbitDB
